import Mathlib

/-!
Verification of the catapult telemetry result ledger
(`telemetry/internal/results/page_test_results.py`) and the desktop browser
backend (`telemetry/internal/backends/chrome/desktop_browser_backend.py`).
The Python classes are embedded shallowly: every method becomes a pure
function from the relevant object state to a new state, paired with the
error it raises (if any) and the externally visible effects it performs.
-/

namespace Catapult

/-! ## Result ledger: `PageTestResults` and `StoryRun` -/

/-- Errors raised by the ledger methods: Python `assert` statements become
`assertionError`, explicit `raise ValueError(...)` becomes `valueError`. -/
inductive PyErr
  | assertionError (msg : String)
  | valueError (msg : String)
  deriving DecidableEq, Repr

/-- Status of a story run. Modelled from the spec: `story_run.StoryRun` is
not among the sources; §3 gives the lifecycle
`running -> ok | failed(message) | skipped(reason, expected)`. -/
inductive RunStatus
  | running
  | failedSt (message : String)
  | skippedSt (reason : String) (expected : Bool)
  deriving DecidableEq, Repr

/-- One recorded measurement entry of a story run. Modelled from the spec:
§3 describes an ordered mapping of measurement name to unit, ordered numeric
samples and an optional description. -/
structure Measurement where
  name : String
  unit : String
  samples : List Int
  description : Option String
  deriving DecidableEq, Repr

/-- Modelled from the spec: `story_run.StoryRun` is not among the sources.
§3: one record per executed story with identity (story, 0-based run index),
status, ordered measurements, artifact names, and an end-timestamp stamped
by `Finish` (modelled as the `finished` flag). -/
structure StoryRun where
  story : Nat
  index : Nat
  status : RunStatus
  measurements : List Measurement
  artifacts : List String
  finished : Bool
  deriving DecidableEq, Repr

/-- A freshly created story run (status `running`, nothing recorded). -/
def StoryRun.mkNew (story index : Nat) : StoryRun :=
  { story := story, index := index, status := .running, measurements := []
    artifacts := [], finished := false }

/-- Modelled from the spec: `StoryRun.Finish` stamps the end timestamp. -/
def StoryRun.Finish (r : StoryRun) : StoryRun :=
  { r with finished := true }

/-- Modelled from the spec: `StoryRun.SetFailed` transitions to `failed`. -/
def StoryRun.SetFailed (r : StoryRun) (message : String) : StoryRun :=
  { r with status := .failedSt message }

/-- Modelled from the spec: `StoryRun.Skip` transitions to `skipped`. -/
def StoryRun.Skip (r : StoryRun) (reason : String) (expected : Bool) : StoryRun :=
  { r with status := .skippedSt reason expected }

/-- Modelled from the spec: `StoryRun.AddMeasurement` appends the samples
under the given name and unit to the run record. -/
def StoryRun.AddMeasurement (r : StoryRun) (name unit : String)
    (samples : List Int) (description : Option String) : StoryRun :=
  { r with measurements :=
      r.measurements ++ [⟨name, unit, samples, description⟩] }

/-- Modelled from the spec: `StoryRun.CreateArtifact` records an artifact
under the given name. -/
def StoryRun.CreateArtifact (r : StoryRun) (name : String) : StoryRun :=
  { r with artifacts := r.artifacts ++ [name] }

/-- The `DIAGNOSTICS_NAME` constant from page_test_results.py. -/
def diagnosticsName : String := "diagnostics.json"

/-- Lookup in the `_measurement_units` dict (embedded as an association
list; keys are unique because an entry is only added when absent). -/
def unitsGet (name : String) : List (String × String) → Option String
  | [] => none
  | (k, v) :: rest => if k = name then some v else unitsGet name rest

/-- State of a `PageTestResults` object: the fields mutated by its methods.
`resultsStreamOpen` models whether `_results_stream` is still open. -/
structure Ledger where
  currentStoryRun : Option StoryRun
  allStoryRuns : List StoryRun
  measurementUnits : List (String × String)
  interruption : Option String
  finalized : Bool
  resultsStreamOpen : Bool
  deriving DecidableEq, Repr

/-- The state right after `PageTestResults.__init__`. -/
def Ledger.init : Ledger :=
  { currentStoryRun := none, allStoryRuns := [], measurementUnits := []
    interruption := none, finalized := false, resultsStreamOpen := true }

/-- Method `PageTestResults.WillRunPage`: asserts not finalized and no current run,
then creates the story run and writes the diagnostics artifact on it. -/
def Ledger.WillRunPage (l : Ledger) (story index : Nat) :
    Option PyErr × Ledger :=
  if l.finalized then
    (some (.assertionError "Results are finalized, cannot run more stories."), l)
  else if l.currentStoryRun.isSome then
    (some (.assertionError "Did not call DidRunPage."), l)
  else
    let run := (StoryRun.mkNew story index).CreateArtifact diagnosticsName
    (none, { l with currentStoryRun := some run })

/-- Method `PageTestResults.DidRunPage`: asserts a current run, finishes it, appends
it to `_all_story_runs` and clears the current-run slot. -/
def Ledger.DidRunPage (l : Ledger) : Option PyErr × Ledger :=
  match l.currentStoryRun with
  | none => (some (.assertionError "Did not call WillRunPage."), l)
  | some run =>
      (none, { l with currentStoryRun := none,
                      allStoryRuns := l.allStoryRuns ++ [run.Finish] })

/-- Method `PageTestResults.InterruptBenchmark`: asserts not finalized and a
non-empty reason; `_interruption = _interruption or reason` keeps the first
interruption reason. -/
def Ledger.InterruptBenchmark (l : Ledger) (reason : String) :
    Option PyErr × Ledger :=
  if l.finalized then
    (some (.assertionError "Results are finalized, cannot interrupt."), l)
  else if reason = "" then
    (some (.assertionError "A reason string to interrupt must be provided."), l)
  else
    (none, { l with interruption := some (l.interruption.getD reason) })

/-- Method `PageTestResults.AddMeasurement`: asserts a current run; raises
`ValueError` if the name was previously recorded under a different unit;
otherwise records the canonical unit (first observation only) and the
samples on the current run. -/
def Ledger.AddMeasurement (l : Ledger) (name unit : String)
    (samples : List Int) (description : Option String) :
    Option PyErr × Ledger :=
  match l.currentStoryRun with
  | none => (some (.assertionError "Not currently running a story."), l)
  | some run =>
      match unitsGet name l.measurementUnits with
      | some oldUnit =>
          if unit ≠ oldUnit then
            (some (.valueError ("Unit for measurement " ++ name
                ++ " changed from " ++ oldUnit ++ " to " ++ unit ++ ".")), l)
          else
            let run2 := run.AddMeasurement name unit samples description
            (none, { l with currentStoryRun := some run2 })
      | none =>
          let run2 := run.AddMeasurement name unit samples description
          (none, { l with
              measurementUnits := l.measurementUnits ++ [(name, unit)],
              currentStoryRun := some run2 })

/-- Method `PageTestResults.Fail`: asserts a current run; normalizes the failure to
text and transitions the current run to `failed`. -/
def Ledger.Fail (l : Ledger) (failure : String) : Option PyErr × Ledger :=
  match l.currentStoryRun with
  | none => (some (.assertionError "Not currently running test."), l)
  | some run =>
      let msg := "Failure recorded for page " ++ toString run.story ++ ": " ++ failure
      (none, { l with currentStoryRun := some (run.SetFailed msg) })

/-- Method `PageTestResults.Skip`: asserts a current run and transitions it to
`skipped`. -/
def Ledger.Skip (l : Ledger) (reason : String) (expected : Bool) :
    Option PyErr × Ledger :=
  match l.currentStoryRun with
  | none => (some (.assertionError "Not currently running test."), l)
  | some run =>
      (none, { l with currentStoryRun := some (run.Skip reason expected) })

/-- Python `repr(exc_value)` for the exception abstracted as its message
string; never empty. -/
def reprExc (e : String) : String := "Exception(" ++ e ++ ")"

/-- Method `PageTestResults.Finalize`: no-op if already finalized; with an
exception value it interrupts the benchmark (first reason wins) and discards
the in-progress run, otherwise it asserts no run is in progress; then it
marks the ledger finalized, serializes every completed run in order to the
results stream (returned as the third component) and closes the stream. -/
def Ledger.Finalize (l : Ledger) (excValue : Option String) :
    Option PyErr × Ledger × List StoryRun :=
  if l.finalized then (none, l, [])
  else
    match excValue with
    | some e =>
        match l.InterruptBenchmark (reprExc e) with
        | (some err, l2) => (some err, l2, [])
        | (none, l2) =>
            (none, { l2 with currentStoryRun := none, finalized := true,
                             resultsStreamOpen := false }, l2.allStoryRuns)
    | none =>
        if l.currentStoryRun.isSome then
          (some (.assertionError "Cannot finalize while stories are still running."),
           l, [])
        else
          (none, { l with finalized := true, resultsStreamOpen := false },
           l.allStoryRuns)

/-- The ledger operations, for invariants quantified over arbitrary call
sequences. -/
inductive LedgerOp
  | will (story index : Nat)
  | did
  | addMeasurement (name unit : String) (samples : List Int)
      (description : Option String)
  | failOp (message : String)
  | skipOp (reason : String) (expected : Bool)
  | interrupt (reason : String)
  | finalize (excValue : Option String)
  deriving DecidableEq, Repr

/-- One ledger method call (the serialized output of `Finalize` is dropped
here; only the error and the state matter for the step relation). -/
def Ledger.step (l : Ledger) (op : LedgerOp) : Option PyErr × Ledger :=
  match op with
  | .will s i => l.WillRunPage s i
  | .did => l.DidRunPage
  | .addMeasurement n u s d => l.AddMeasurement n u s d
  | .failOp m => l.Fail m
  | .skipOp r e => l.Skip r e
  | .interrupt r => l.InterruptBenchmark r
  | .finalize e => ((l.Finalize e).1, (l.Finalize e).2.1)

/-- A sequence of ledger calls, stopping at the first raised error (in
Python an uncaught exception aborts the calling sequence). -/
def Ledger.runOps (l : Ledger) (ops : List LedgerOp) : Option PyErr × Ledger :=
  match ops with
  | [] => (none, l)
  | op :: rest =>
      match l.step op with
      | (some e, l2) => (some e, l2)
      | (none, l2) => l2.runOps rest

/-- The strictly alternating call sequence
`WillRunPage s₀; DidRunPage; WillRunPage s₁; DidRunPage; ...`. -/
def altOps (stories : List (Nat × Nat)) : List LedgerOp :=
  stories.flatMap fun si => [.will si.1 si.2, .did]

/-- The completed run produced by one `WillRunPage`/`DidRunPage` pair with
nothing recorded in between. -/
def finishedRun (story index : Nat) : StoryRun :=
  ((StoryRun.mkNew story index).CreateArtifact diagnosticsName).Finish

/-! ## Desktop browser backend: `DesktopBrowserBackend`

The supervision state machine of
`telemetry/internal/backends/chrome/desktop_browser_backend.py`.
External collaborators (platform, process, cloud storage, symbolizer,
dump finder, clock) are supplied as environment records; the backend
fields mutated by the methods form the state. -/

/-- Errors of `_FindDevToolsPortAndTarget`: it raises `EnvironmentError` (retryable: the
caller polls again) for a missing or empty file, and `ValueError` comes out
of `int(lines[0])` on a non-numeric first line. -/
inductive DevToolsErr
  | envError (msg : String)
  | valueError (msg : String)
  deriving DecidableEq, Repr

/-- Python `str.rstrip()` on each line read from the DevTools file. -/
def pyRstrip (s : String) : String :=
  String.mk (s.data.reverse.dropWhile Char.isWhitespace).reverse

/-- Python `int(s)` (base 10): strips surrounding whitespace, accepts an
optional sign followed by at least one digit, otherwise raises. -/
def parsePyInt (s : String) : Option Int :=
  let t := ((s.data.dropWhile Char.isWhitespace).reverse.dropWhile Char.isWhitespace).reverse
  match t with
  | [] => none
  | c :: rest =>
      let digits := if c = '-' ∨ c = '+' then rest else c :: rest
      if digits ≠ [] ∧ digits.all Char.isDigit then
        let v : Int := Int.ofNat (digits.foldl (fun acc d => acc * 10 + (d.toNat - 48)) 0)
        some (if c = '-' then -v else v)
      else none

/-- The DevToolsActivePort file: `none` when absent; otherwise its lines as
read (a zero-byte file reads as zero lines, i.e. `some []`). -/
def DevToolsFile := Option (List String)

/-- Method `DesktopBrowserBackend._FindDevToolsPortAndTarget`: raises if the file
does not exist; reads and rstrips the lines only when `st_size > 0`; raises
if no lines were read; parses line 1 as the port and takes line 2, when
present, as the browser target. -/
def findDevToolsPortAndTarget (file : DevToolsFile) :
    Except DevToolsErr (Int × Option String) :=
  match file with
  | none => .error (.envError "DevTools file doest not exist yet")
  | some raw =>
      let lines : Option (List String) :=
        if raw.length > 0 then some (raw.map pyRstrip) else none
      match lines with
      | none => .error (.envError "DevTools file empty")
      | some [] => .error (.envError "DevTools file empty")
      | some (l0 :: rest) =>
          match parsePyInt l0 with
          | none => .error (.valueError ("invalid literal for int: " ++ l0))
          | some port => .ok (port, rest.head?)

/-- The internal steps of `Close` that can fault (raise) in Python; the
`BestEffort` decorator swallows whichever one fires. `rmtree` is called
with `ignore_errors=True` and cannot fault. -/
inductive CloseStep
  | coopShutdown
  | sendSignal
  | killProc
  | closeOutput
  deriving DecidableEq, Repr

/-- Externally visible effects of `Close`. -/
inductive CloseAction
  | coopSignal
  | sendSigint
  | killBrowser
  | closeOutputFile
  | rmtreeMinidumpDir
  deriving DecidableEq, Repr

/-- Environment for `Close`: platform capabilities, how the process reacts
to each shutdown attempt, and fault injection for the faultable steps. -/
structure CloseEnv where
  coopSupported : Bool
  coopSignalOk : Bool
  coopExits : Bool
  isWin : Bool
  sigintExits : Bool
  faults : CloseStep → Bool

/-- The backend fields read and written by `Close`: `_proc` (whether the
handle is set and whether `poll()` returns `None`), `_tmp_output_file` and
`_tmp_minidump_dir`. -/
structure BackendProc where
  procHandle : Bool
  procAlive : Bool
  tmpOutputFile : Bool
  tmpMinidumpDir : Bool
  deriving DecidableEq, Repr

/-- Method `DesktopBrowserBackend.IsBrowserRunning`:
`self._proc and self._proc.poll() is None`. -/
def isBrowserRunning (s : BackendProc) : Bool :=
  s.procHandle && s.procAlive

/-- One stage of `Close` produces a new state, the accumulated actions, and
the step that faulted, if any; a fault aborts the remaining stages. -/
def CloseResult := BackendProc × List CloseAction × Option CloseStep

/-- Sequencing of `Close` stages: a fault short-circuits. -/
def andThenClose (r : CloseResult)
    (f : BackendProc → List CloseAction → CloseResult) : CloseResult :=
  if r.2.2.isSome then r else f r.1 r.2.1

/-- Method `_TryCooperativeShutdown`, guarded by `if self.IsBrowserRunning()`: if
the platform supports it and `CooperativelyShutdown` returns true, wait up
to 15 units for exit; a wait timeout is caught and logged. -/
def coopStage (env : CloseEnv) (s : BackendProc) (acc : List CloseAction) :
    CloseResult :=
  if isBrowserRunning s && env.coopSupported then
    if env.faults .coopShutdown then (s, acc, some .coopShutdown)
    else if env.coopSignalOk then
      if env.coopExits then
        ({ s with procAlive := false }, acc ++ [.coopSignal], none)
      else (s, acc ++ [.coopSignal], none)
    else (s, acc, none)
  else (s, acc, none)

/-- The polite SIGINT shutdown, skipped on Windows: send SIGINT, wait up to
5 units; on success `self._proc = None`, on timeout the warning is logged
and the process is left for the next stage. -/
def sigintStage (env : CloseEnv) (s : BackendProc) (acc : List CloseAction) :
    CloseResult :=
  if isBrowserRunning s && !env.isWin then
    if env.faults .sendSignal then (s, acc, some .sendSignal)
    else if env.sigintExits then
      ({ s with procHandle := false, procAlive := false },
       acc ++ [.sendSigint], none)
    else (s, acc ++ [.sendSigint], none)
  else (s, acc, none)

/-- Forced kill if still running, then `self._proc = None` unconditionally. -/
def killStage (env : CloseEnv) (s : BackendProc) (acc : List CloseAction) :
    CloseResult :=
  if isBrowserRunning s then
    if env.faults .killProc then (s, acc, some .killProc)
    else ({ s with procHandle := false, procAlive := false },
          acc ++ [.killBrowser], none)
  else ({ s with procHandle := false }, acc, none)

/-- Release the captured-output file, if any. -/
def outputStage (env : CloseEnv) (s : BackendProc) (acc : List CloseAction) :
    CloseResult :=
  if s.tmpOutputFile then
    if env.faults .closeOutput then (s, acc, some .closeOutput)
    else ({ s with tmpOutputFile := false }, acc ++ [.closeOutputFile], none)
  else (s, acc, none)

/-- Delete the private minidump temp directory
(`shutil.rmtree(..., ignore_errors=True)`: never faults). -/
def minidumpDirStage (s : BackendProc) (acc : List CloseAction) :
    CloseResult :=
  if s.tmpMinidumpDir then
    ({ s with tmpMinidumpDir := false }, acc ++ [.rmtreeMinidumpDir], none)
  else (s, acc, none)

/-- The undecorated body of `DesktopBrowserBackend.Close`: the shutdown
escalation followed by resource cleanup, stopping at the first internal
fault. -/
def closeBody (env : CloseEnv) (s : BackendProc) : CloseResult :=
  andThenClose (coopStage env s []) fun s1 acc1 =>
  andThenClose (sigintStage env s1 acc1) fun s2 acc2 =>
  andThenClose (killStage env s2 acc2) fun s3 acc3 =>
  andThenClose (outputStage env s3 acc3) fun s4 acc4 =>
  minidumpDirStage s4 acc4

/-- Modelled from the spec: the `exc_util.BestEffort` decorator on `Close`
is an external collaborator; per §4.1 "all internal faults are swallowed
and logged, never propagated", so the decorated `Close` always returns
normally with the state and effects up to the fault point. -/
def Close (env : CloseEnv) (s : BackendProc) : BackendProc × List CloseAction :=
  ((closeBody env s).1, (closeBody env s).2.1)

/-- Environment for minidump symbolization: the dump finder results, the
cloud-storage upload collaborator (`none` = `CloudStorageError`) and the
symbolizer collaborator (`none` = no stack produced). -/
structure SymEnv where
  allDumps : List String
  upload : String → Option String
  stackOf : String → Option String

/-- The backend field `_most_recent_symbolized_minidump_paths` (a set,
embedded as a list without duplicates). -/
structure SymState where
  symbolizedPaths : List String
  deriving DecidableEq, Repr

/-- Collaborator calls made while symbolizing. -/
inductive SymAction
  | uploadDump (path : String)
  | symbolizeDump (path : String)
  deriving DecidableEq, Repr

/-- Method `_UploadMinidumpToCloudStorage`: on `CloudStorageError` the link
degrades to a placeholder. -/
def uploadMinidumpToCloudStorage (env : SymEnv) (p : String) : String :=
  (env.upload p).getD "<Missing link>"

/-- Python set add. -/
def insertPath (p : String) (ps : List String) : List String :=
  if p ∈ ps then ps else ps ++ [p]

/-- Python truthiness of the symbolizer result: `None` and the empty
string are both falsy (`if not stack`). -/
def stackFalsy (stack : Option String) : Bool :=
  match stack with
  | none => true
  | some t => t = ""

/-- Method `DesktopBrowserBackend._InternalSymbolizeMinidump`: always uploads,
then symbolizes; on a falsy stack it returns the failure message and leaves
the memo set alone; on success it memoizes the path and returns the stack. -/
def internalSymbolizeMinidump (env : SymEnv) (s : SymState) (p : String) :
    (Bool × String) × SymState × List SymAction :=
  let link := uploadMinidumpToCloudStorage env p
  let acts := [SymAction.uploadDump p, SymAction.symbolizeDump p]
  if stackFalsy (env.stackOf p) then
    ((false, "Failed to symbolize minidump. Raw stack is uploaded to cloud storage: " ++ link ++ "."),
     s, acts)
  else
    ((true, (env.stackOf p).getD ""),
     { s with symbolizedPaths := insertPath p s.symbolizedPaths }, acts)

/-- Method `DesktopBrowserBackend.GetAllUnsymbolizedMinidumpPaths`: all dumps from
the finder minus the already-symbolized set. -/
def getAllUnsymbolizedMinidumpPaths (env : SymEnv) (s : SymState) :
    List String :=
  env.allDumps.filter (fun p => decide (p ∉ s.symbolizedPaths))

/-- Environment for the `GetRecentMinidumpPathWithTimeout` polling loop:
the dump finder result at each iteration, file modification times, and the
wall-clock cost of each iteration beyond the one unit every real iteration
takes at minimum. -/
structure DumpEnv where
  finder : Nat → Option String
  mtime : String → Nat
  extraTime : Nat → Nat

/-- Observable events of the polling loop. A `sleepFor` event would be
emitted by a `time.sleep` between attempts; the loop body contains none, so
the embedding never produces one. -/
inductive PollEvent
  | poll (iteration : Nat)
  | sleepFor (duration : Nat)
  deriving DecidableEq, Repr

/-- Recognizes sleep/backoff events. -/
def isSleepEvent : PollEvent → Bool
  | .sleepFor _ => true
  | .poll _ => false

/-- The `while time.time() - start_time < timeout_s` loop of
`GetRecentMinidumpPathWithTimeout`: poll the finder; with no dump, or a
dump older than `oldestTs`, `continue` immediately (no sleep); otherwise
return the dump. Iteration `i` advances the clock by `1 + extraTime i`. -/
def dumpLoop (env : DumpEnv) (timeoutS oldestTs : Nat) (i elapsed : Nat) :
    Option String × List PollEvent :=
  if elapsed < timeoutS then
    match env.finder i with
    | none =>
        let r := dumpLoop env timeoutS oldestTs (i + 1) (elapsed + 1 + env.extraTime i)
        (r.1, .poll i :: r.2)
    | some dump =>
        if env.mtime dump < oldestTs then
          let r := dumpLoop env timeoutS oldestTs (i + 1) (elapsed + 1 + env.extraTime i)
          (r.1, .poll i :: r.2)
        else (some dump, [.poll i])
  else (none, [])
termination_by timeoutS - elapsed
decreasing_by
  all_goals omega

/-- Method `GetRecentMinidumpPathWithTimeout`: `assert timeout_s > 0` (the
`oldest_ts >= 0` assert is vacuous over `Nat`), then run the polling loop;
`none` models the failed assertion. -/
def getRecentMinidumpPathWithTimeout (env : DumpEnv) (timeoutS oldestTs : Nat) :
    Option (Option String × List PollEvent) :=
  if 0 < timeoutS then some (dumpLoop env timeoutS oldestTs 0 0) else none

/-- Polling environment where the finder never returns a dump and every
iteration costs one time unit. -/
def pollEnvNone : DumpEnv :=
  { finder := fun _ => none, mtime := fun _ => 0, extraTime := fun _ => 0 }

/-- Close environment: every capability off, no faults, non-Windows. -/
def closeEnvPlain : CloseEnv :=
  { coopSupported := false, coopSignalOk := false, coopExits := false
    isWin := false, sigintExits := true, faults := fun _ => false }

/-- Close environment in which every faultable step faults. -/
def closeEnvAllFaults : CloseEnv :=
  { coopSupported := false, coopSignalOk := false, coopExits := false
    isWin := false, sigintExits := true, faults := fun _ => true }

/-- A fully live backend: process handle set and alive, output file and
minidump dir present. -/
def backendLive : BackendProc :=
  { procHandle := true, procAlive := true, tmpOutputFile := true
    tmpMinidumpDir := true }

/-- Symbolization environment with two dumps, working upload, and a
symbolizer that only resolves `a.dmp`. -/
def symEnvW : SymEnv :=
  { allDumps := ["a.dmp", "b.dmp"]
    upload := fun _ => some "gs://bucket/minidump.dmp"
    stackOf := fun p => if p = "a.dmp" then some "stack frames" else none }

/-! ## Ledger lemmas -/

/-- On an already finalized ledger, `Finalize` returns immediately: no
error, no state change, no serialized records. -/
theorem Finalize_of_finalized (l : Ledger) (exc : Option String)
    (h : l.finalized = true) : l.Finalize exc = (none, l, []) := by
  unfold Ledger.Finalize
  simp [h]

/-- A `Finalize` call that returns without raising leaves the ledger
finalized. -/
theorem finalized_of_Finalize_ok (l l2 : Ledger) (exc : Option String)
    (out : List StoryRun) (h : l.Finalize exc = (none, l2, out)) :
    l2.finalized = true := by
  unfold Ledger.Finalize at h
  split at h
  · simp only [Prod.mk.injEq, true_and] at h
    obtain ⟨h1, -⟩ := h
    subst h1
    assumption
  · split at h
    · split at h
      · simp at h
      · simp only [Prod.mk.injEq, true_and] at h
        obtain ⟨h1, -⟩ := h
        subst h1
        rfl
    · split at h
      · simp at h
      · simp only [Prod.mk.injEq, true_and] at h
        obtain ⟨h1, -⟩ := h
        subst h1
        rfl

/-- C1: Finalize is idempotent: after a Finalize call returns without
raising, the ledger is finalized and any later Finalize call, with or
without an abnormal-exit cause, returns immediately without error, writes
no serialized run records, and leaves the ledger state unchanged. -/
theorem c1_finalize_idempotent (l l2 : Ledger) (exc : Option String)
    (out : List StoryRun) (h : l.Finalize exc = (none, l2, out)) :
    l2.finalized = true ∧ ∀ exc2, l2.Finalize exc2 = (none, l2, []) := by
  have h2 := finalized_of_Finalize_ok l l2 exc out h
  exact ⟨h2, fun exc2 => Finalize_of_finalized l2 exc2 h2⟩

/-- Witness for C1 at a concrete ledger: finalizing the fresh ledger and
then finalizing again (even with an abnormal-exit cause) is a no-op. -/
theorem c1_witness :
    (Ledger.init.Finalize none).2.1.Finalize (some "boom")
      = (none, (Ledger.init.Finalize none).2.1, []) :=
  (c1_finalize_idempotent Ledger.init (Ledger.init.Finalize none).2.1 none
    (Ledger.init.Finalize none).2.2 (by rfl)).2 (some "boom")

/-- C5: `WillRunPage` fails with a usage-precondition (assertion) error when
the ledger is finalized, or when a run is already in progress; `DidRunPage`
fails with a usage-precondition error when no run is in progress; in every
failure case the ledger state is returned unchanged. -/
theorem c5_preconditions (l : Ledger) (story index : Nat) :
    (l.finalized = true →
      l.WillRunPage story index
        = (some (.assertionError "Results are finalized, cannot run more stories."), l)) ∧
    (l.finalized = false → l.currentStoryRun.isSome = true →
      l.WillRunPage story index
        = (some (.assertionError "Did not call DidRunPage."), l)) ∧
    (l.currentStoryRun = none →
      l.DidRunPage = (some (.assertionError "Did not call WillRunPage."), l)) := by
  refine ⟨fun h => ?_, fun h1 h2 => ?_, fun h => ?_⟩
  · unfold Ledger.WillRunPage
    simp [h]
  · unfold Ledger.WillRunPage
    simp [h1, h2]
  · unfold Ledger.DidRunPage
    simp [h]

/-- Witness for C5 at a concrete ledger: a second `WillRunPage` while a run
is in progress fails and leaves the state unchanged. -/
theorem c5_witness :
    (Ledger.init.WillRunPage 0 0).2.WillRunPage 1 0
      = (some (.assertionError "Did not call DidRunPage."),
         (Ledger.init.WillRunPage 0 0).2) :=
  (c5_preconditions (Ledger.init.WillRunPage 0 0).2 1 0).2.1 (by rfl) (by rfl)

/-- C10: AddMeasurement is atomic on error: whenever it raises the
unit-mismatch `ValueError`, the whole ledger state — in particular the
measurement-name-to-canonical-unit map and the current run — is unchanged. -/
theorem c10_add_measurement_atomic (l : Ledger) (name unit : String)
    (samples : List Int) (d : Option String) (m : String)
    (h : (l.AddMeasurement name unit samples d).1 = some (.valueError m)) :
    (l.AddMeasurement name unit samples d).2 = l := by
  unfold Ledger.AddMeasurement at h ⊢
  split at h
  · simp_all
  · split at h
    · split at h <;> simp_all
    · simp_all

/-- Witness for C10 at a concrete ledger: a unit-mismatch AddMeasurement
leaves the ledger exactly as it was. -/
theorem c10_witness :
    ((((Ledger.init.WillRunPage 0 0).2.AddMeasurement "score" "ms" [1] none).2).AddMeasurement "score" "count" [2] none).2
      = (((Ledger.init.WillRunPage 0 0).2.AddMeasurement "score" "ms" [1] none).2) :=
  c10_add_measurement_atomic
    (((Ledger.init.WillRunPage 0 0).2.AddMeasurement "score" "ms" [1] none).2)
    "score" "count" [2] none
    "Unit for measurement score changed from ms to count." (by rfl)

/-- Appending entries on the right never changes an existing lookup
result. -/
theorem unitsGet_append_some (name : String) (xs ys : List (String × String))
    (u : String) (h : unitsGet name xs = some u) :
    unitsGet name (xs ++ ys) = some u := by
  induction xs with
  | nil => simp [unitsGet] at h
  | cons p rest ih =>
      obtain ⟨k, v⟩ := p
      simp only [List.cons_append, unitsGet] at h ⊢
      by_cases hk : k = name
      · rw [if_pos hk] at h ⊢
        exact h
      · rw [if_neg hk] at h ⊢
        exact ih h

/-- Appending a fresh key makes its lookup succeed. -/
theorem unitsGet_append_self (name u : String) (xs : List (String × String))
    (h : unitsGet name xs = none) :
    unitsGet name (xs ++ [(name, u)]) = some u := by
  induction xs with
  | nil => simp [unitsGet]
  | cons p rest ih =>
      obtain ⟨k, v⟩ := p
      simp only [List.cons_append, unitsGet] at h ⊢
      by_cases hk : k = name
      · rw [if_pos hk] at h
        exact absurd h (by simp)
      · rw [if_neg hk] at h ⊢
        exact ih h

/-- Lemma: `WillRunPage` never touches the measurement-units map. -/
theorem WillRunPage_units (l : Ledger) (s i : Nat) :
    (l.WillRunPage s i).2.measurementUnits = l.measurementUnits := by
  unfold Ledger.WillRunPage
  split
  · rfl
  · split
    · rfl
    · rfl

/-- Lemma: `DidRunPage` never touches the measurement-units map. -/
theorem DidRunPage_units (l : Ledger) :
    l.DidRunPage.2.measurementUnits = l.measurementUnits := by
  unfold Ledger.DidRunPage
  split <;> rfl

/-- Lemma: `Fail` never touches the measurement-units map. -/
theorem Fail_units (l : Ledger) (m : String) :
    (l.Fail m).2.measurementUnits = l.measurementUnits := by
  unfold Ledger.Fail
  split <;> rfl

/-- Lemma: `Skip` never touches the measurement-units map. -/
theorem Skip_units (l : Ledger) (r : String) (e : Bool) :
    (l.Skip r e).2.measurementUnits = l.measurementUnits := by
  unfold Ledger.Skip
  split <;> rfl

/-- Lemma: `InterruptBenchmark` never touches the measurement-units map. -/
theorem InterruptBenchmark_units (l : Ledger) (r : String) :
    (l.InterruptBenchmark r).2.measurementUnits = l.measurementUnits := by
  unfold Ledger.InterruptBenchmark
  split
  · rfl
  · split
    · rfl
    · rfl

/-- Lemma: `Finalize` never touches the measurement-units map. -/
theorem Finalize_units (l : Ledger) (e : Option String) :
    (l.Finalize e).2.1.measurementUnits = l.measurementUnits := by
  unfold Ledger.Finalize
  split
  · rfl
  · split
    · next e2 =>
        split
        · next err l2 heq =>
            have h2 := InterruptBenchmark_units l (reprExc e2)
            rw [heq] at h2
            exact h2
        · next l2 heq =>
            have h2 := InterruptBenchmark_units l (reprExc e2)
            rw [heq] at h2
            exact h2
    · split
      · rfl
      · rfl

/-- Every ledger operation preserves an already-recorded canonical unit. -/
theorem step_preserves_units (l : Ledger) (op : LedgerOp) (name u : String)
    (h : unitsGet name l.measurementUnits = some u) :
    unitsGet name (l.step op).2.measurementUnits = some u := by
  cases op with
  | will s i =>
      simp only [Ledger.step]
      rw [WillRunPage_units]
      exact h
  | did =>
      simp only [Ledger.step]
      rw [DidRunPage_units]
      exact h
  | addMeasurement n un sa d =>
      simp only [Ledger.step]
      unfold Ledger.AddMeasurement
      split
      · exact h
      · split
        · split
          · exact h
          · exact h
        · exact unitsGet_append_some name l.measurementUnits [(n, un)] u h
  | failOp m =>
      simp only [Ledger.step]
      rw [Fail_units]
      exact h
  | skipOp r e =>
      simp only [Ledger.step]
      rw [Skip_units]
      exact h
  | interrupt r =>
      simp only [Ledger.step]
      rw [InterruptBenchmark_units]
      exact h
  | finalize e =>
      simp only [Ledger.step]
      rw [Finalize_units]
      exact h

/-- C2: the first AddMeasurement with a name fixes its canonical unit for
the whole ledger lifetime: the first successful call records the unit; every
later operation preserves the recorded unit; a later AddMeasurement with
the same name and a different unit fails with the unit-mismatch ValueError
and changes nothing; with the same unit it succeeds and appends the samples
to the current run, whatever was recorded on earlier runs. -/
theorem c2_unit_consistency (l : Ledger) (name unit unit2 : String)
    (samples : List Int) (d : Option String) :
    (l.currentStoryRun.isSome = true →
      unitsGet name l.measurementUnits = none →
      (l.AddMeasurement name unit samples d).1 = none ∧
      unitsGet name (l.AddMeasurement name unit samples d).2.measurementUnits
        = some unit) ∧
    (∀ u op, unitsGet name l.measurementUnits = some u →
      unitsGet name (l.step op).2.measurementUnits = some u) ∧
    (∀ u run, unitsGet name l.measurementUnits = some u → unit2 ≠ u →
      l.currentStoryRun = some run →
      l.AddMeasurement name unit2 samples d
        = (some (.valueError ("Unit for measurement " ++ name
            ++ " changed from " ++ u ++ " to " ++ unit2 ++ ".")), l)) ∧
    (∀ u run, unitsGet name l.measurementUnits = some u →
      l.currentStoryRun = some run →
      l.AddMeasurement name u samples d
        = (none, { l with currentStoryRun := some (run.AddMeasurement name u samples d) })) := by
  refine ⟨fun hrun hnone => ?_, fun u op h => step_preserves_units l op name u h,
    fun u run hsome hne hrun => ?_, fun u run hsome hrun => ?_⟩
  · obtain ⟨run, hrun2⟩ := Option.isSome_iff_exists.mp hrun
    unfold Ledger.AddMeasurement
    simp only [hrun2, hnone]
    exact ⟨trivial, unitsGet_append_self name unit l.measurementUnits hnone⟩
  · unfold Ledger.AddMeasurement
    simp [hrun, hsome, hne]
  · unfold Ledger.AddMeasurement
    simp [hrun, hsome]

/-- Witness for C2 at a concrete ledger: with a run in progress and
`score` already canonically in `ms`, adding `score` in `count` fails with
the unit-mismatch error and leaves the ledger unchanged. -/
theorem c2_witness :
    ((((Ledger.init.WillRunPage 0 0).2.AddMeasurement "score" "ms" [1] none).2).AddMeasurement
        "score" "count" [2] none)
      = (some (.valueError "Unit for measurement score changed from ms to count."),
         (((Ledger.init.WillRunPage 0 0).2.AddMeasurement "score" "ms" [1] none).2)) :=
  (c2_unit_consistency
      (((Ledger.init.WillRunPage 0 0).2.AddMeasurement "score" "ms" [1] none).2)
      "score" "ms" "count" [2] none).2.2.1 "ms"
    ((((StoryRun.mkNew 0 0).CreateArtifact diagnosticsName)).AddMeasurement
        "score" "ms" [1] none)
    (by rfl) (by decide) (by rfl)

/-- The `repr(exc_value)` text of an exception is never the empty string, so the
interruption-reason assertion inside `Finalize` cannot fire. -/
theorem reprExc_ne_empty (e : String) : reprExc e ≠ "" := by
  intro h
  have h2 := congrArg String.length h
  simp only [reprExc, String.length_append] at h2
  have hB : (")" : String).length = 1 := rfl
  have hC : ("" : String).length = 0 := rfl
  omega

/-- Counterexample to C3 as stated: on a ledger that was already
interrupted before `Finalize` is called with an abnormal-exit cause, the
interruption reason stays the first interruption reason
(`_interruption = _interruption or reason` in `InterruptBenchmark`), not the
description of the cause handed to `Finalize`. -/
theorem c3_counterexample :
    (((Ledger.init.WillRunPage 0 0).2.InterruptBenchmark "first interruption").2.currentStoryRun.isSome = true) ∧
    ((((Ledger.init.WillRunPage 0 0).2.InterruptBenchmark "first interruption").2.Finalize (some "boom")).2.1.interruption
      = some "first interruption") ∧
    ((((Ledger.init.WillRunPage 0 0).2.InterruptBenchmark "first interruption").2.Finalize (some "boom")).2.1.interruption
      ≠ some (reprExc "boom")) := by
  refine ⟨by decide, by decide, by decide⟩

/-- C3 (amended): if `Finalize` is called with a non-none abnormal-exit
cause while a story run is in progress, the call returns without raising,
the ledger becomes interrupted — with the description of the cause as the
interruption reason if the ledger was not already interrupted, otherwise
keeping the first interruption reason — the in-progress run is discarded,
and the discarded run appears neither in the completed-run sequence nor
among the serialized records. -/
theorem c3_finalize_discards_run (l : Ledger) (e : String)
    (hfin : l.finalized = false) (hrun : l.currentStoryRun.isSome = true) :
    (l.Finalize (some e)).1 = none ∧
    (l.Finalize (some e)).2.1.interruption = some (l.interruption.getD (reprExc e)) ∧
    (l.interruption = none →
      (l.Finalize (some e)).2.1.interruption = some (reprExc e)) ∧
    (l.Finalize (some e)).2.1.currentStoryRun = none ∧
    (l.Finalize (some e)).2.1.allStoryRuns = l.allStoryRuns ∧
    (l.Finalize (some e)).2.2 = l.allStoryRuns ∧
    (∀ run, l.currentStoryRun = some run → run ∉ l.allStoryRuns →
      run ∉ (l.Finalize (some e)).2.1.allStoryRuns ∧ run ∉ (l.Finalize (some e)).2.2) := by
  have hne := reprExc_ne_empty e
  have hfe : l.Finalize (some e)
      = (none, { l with currentStoryRun := none, finalized := true, resultsStreamOpen := false, interruption := some (l.interruption.getD (reprExc e)) }, l.allStoryRuns) := by
    unfold Ledger.Finalize Ledger.InterruptBenchmark
    simp [hfin, hne]
  rw [hfe]
  refine ⟨rfl, rfl, fun hi => by rw [hi]; rfl, rfl, rfl, rfl, fun run hcur hnotin => ⟨hnotin, hnotin⟩⟩

/-- Witness for the amended C3 at a concrete ledger: finalizing with a
cause while a (not previously interrupted) run is in progress interrupts
with the description of the cause. -/
theorem c3_witness :
    (((Ledger.init.WillRunPage 0 0).2.Finalize (some "boom")).1 = none) ∧
    ((Ledger.init.WillRunPage 0 0).2.interruption = none →
      ((Ledger.init.WillRunPage 0 0).2.Finalize (some "boom")).2.1.interruption
        = some (reprExc "boom")) :=
  ⟨(c3_finalize_discards_run (Ledger.init.WillRunPage 0 0).2 "boom" (by rfl) (by rfl)).1,
   (c3_finalize_discards_run (Ledger.init.WillRunPage 0 0).2 "boom" (by rfl) (by rfl)).2.2.1⟩

/-- Lemma: `WillRunPage` then `DidRunPage` on a ready ledger raises nothing and
appends exactly the finished run of that story. -/
theorem will_did_appends (l : Ledger) (s i : Nat)
    (hfin : l.finalized = false) (hcur : l.currentStoryRun = none) :
    (l.WillRunPage s i).1 = none ∧
    (l.WillRunPage s i).2.DidRunPage
      = (none, { l with allStoryRuns := l.allStoryRuns ++ [finishedRun s i] }) := by
  unfold Ledger.WillRunPage Ledger.DidRunPage
  simp [hfin, hcur, finishedRun]

/-- A non-raising step lets `runOps` continue from the new state. -/
theorem runOps_cons_ok (l l2 : Ledger) (op : LedgerOp) (ops : List LedgerOp)
    (h : l.step op = (none, l2)) :
    l.runOps (op :: ops) = l2.runOps ops := by
  have h0 : l.runOps (op :: ops)
      = match l.step op with
        | (some e, l3) => (some e, l3)
        | (none, l3) => l3.runOps ops := rfl
  rw [h0, h]

/-- Alternating `WillRunPage`/`DidRunPage` pairs on a ready ledger raise
nothing and append the finished runs in call order. -/
theorem runOps_alt (stories : List (Nat × Nat)) : ∀ l : Ledger,
    l.finalized = false → l.currentStoryRun = none →
    l.runOps (altOps stories)
      = (none, { l with allStoryRuns := l.allStoryRuns ++ stories.map (fun si => finishedRun si.1 si.2) }) := by
  induction stories with
  | nil =>
      intro l h1 h2
      simp [altOps, Ledger.runOps]
  | cons si rest ih =>
      intro l h1 h2
      obtain ⟨hw1, hw2⟩ := will_did_appends l si.1 si.2 h1 h2
      have hops : altOps (si :: rest) = .will si.1 si.2 :: .did :: altOps rest := by
        simp [altOps]
      have hstep1 : l.step (.will si.1 si.2) = (none, (l.WillRunPage si.1 si.2).2) := by
        simp only [Ledger.step]
        rw [← hw1]
      have hstep2 : (l.WillRunPage si.1 si.2).2.step .did
          = (none, { l with allStoryRuns := l.allStoryRuns ++ [finishedRun si.1 si.2] }) := by
        simp only [Ledger.step]
        exact hw2
      rw [hops, runOps_cons_ok _ _ _ _ hstep1, runOps_cons_ok _ _ _ _ hstep2,
        ih { l with allStoryRuns := l.allStoryRuns ++ [finishedRun si.1 si.2] } h1 h2]
      simp [List.append_assoc]

/-- Lemma: `InterruptBenchmark` never touches the completed-run sequence. -/
theorem InterruptBenchmark_runs (l : Ledger) (r : String) :
    (l.InterruptBenchmark r).2.allStoryRuns = l.allStoryRuns := by
  unfold Ledger.InterruptBenchmark
  split
  · rfl
  · split
    · rfl
    · rfl

/-- Every single ledger operation only ever appends to the completed-run
sequence: the previous sequence stays as an unchanged initial segment. -/
theorem step_appends (l : Ledger) (op : LedgerOp) :
    ∃ t, (l.step op).2.allStoryRuns = l.allStoryRuns ++ t := by
  cases op with
  | will s i =>
      simp only [Ledger.step]
      unfold Ledger.WillRunPage
      split
      · exact ⟨[], by simp⟩
      · split
        · exact ⟨[], by simp⟩
        · exact ⟨[], by simp⟩
  | did =>
      simp only [Ledger.step]
      unfold Ledger.DidRunPage
      split
      · exact ⟨[], by simp⟩
      · next run _ => exact ⟨[run.Finish], rfl⟩
  | addMeasurement n un sa d =>
      simp only [Ledger.step]
      unfold Ledger.AddMeasurement
      split
      · exact ⟨[], by simp⟩
      · split
        · split
          · exact ⟨[], by simp⟩
          · exact ⟨[], by simp⟩
        · exact ⟨[], by simp⟩
  | failOp m =>
      simp only [Ledger.step]
      unfold Ledger.Fail
      split
      · exact ⟨[], by simp⟩
      · exact ⟨[], by simp⟩
  | skipOp r e =>
      simp only [Ledger.step]
      unfold Ledger.Skip
      split
      · exact ⟨[], by simp⟩
      · exact ⟨[], by simp⟩
  | interrupt r =>
      refine ⟨[], ?_⟩
      simp only [Ledger.step]
      rw [InterruptBenchmark_runs]
      simp
  | finalize e =>
      refine ⟨[], ?_⟩
      simp only [Ledger.step]
      unfold Ledger.Finalize
      split
      · simp
      · split
        · next e2 =>
            split
            · next err l2 heq =>
                have h2 := InterruptBenchmark_runs l (reprExc e2)
                rw [heq] at h2
                simpa using h2
            · next l2 heq =>
                have h2 := InterruptBenchmark_runs l (reprExc e2)
                rw [heq] at h2
                simpa using h2
        · split
          · simp
          · simp

/-- C4: for every properly alternating `WillRunPage`/`DidRunPage` sequence
on a ready ledger, no call raises, the completed-run sequence gains exactly
one run per `DidRunPage` in call order (so its length equals the number of
`DidRunPage` calls), and the sequence is append-only: any single ledger
operation leaves the previous completed runs as an unchanged initial
segment. -/
theorem c4_alternating_runs (l l2 l3 : Ledger) (e : Option PyErr)
    (stories : List (Nat × Nat)) (op : LedgerOp)
    (hfin : l.finalized = false) (hcur : l.currentStoryRun = none)
    (hstep : l2.step op = (e, l3)) :
    (l.runOps (altOps stories)).1 = none ∧
    (l.runOps (altOps stories)).2.allStoryRuns
      = l.allStoryRuns ++ stories.map (fun si => finishedRun si.1 si.2) ∧
    (l.runOps (altOps stories)).2.allStoryRuns.length
      = l.allStoryRuns.length + stories.length ∧
    l3.allStoryRuns.take l2.allStoryRuns.length = l2.allStoryRuns := by
  have hr := runOps_alt stories l hfin hcur
  obtain ⟨t, ht⟩ := step_appends l2 op
  rw [hstep] at ht
  refine ⟨by rw [hr], by rw [hr], ?_, ?_⟩
  · rw [hr]
    simp
  · rw [ht]
    exact List.take_left _ _

/-- Witness for C4 at concrete input: two alternating runs on a fresh
ledger complete without error and yield the two finished runs in order;
a `DidRunPage` step on a one-run ledger keeps that run as initial
segment. -/
theorem c4_witness :
    (Ledger.init.runOps (altOps [(0, 0), (1, 0)])).1 = none ∧
    (Ledger.init.runOps (altOps [(0, 0), (1, 0)])).2.allStoryRuns
      = Ledger.init.allStoryRuns ++ [(0, 0), (1, 0)].map (fun si => finishedRun si.1 si.2) ∧
    (Ledger.init.runOps (altOps [(0, 0), (1, 0)])).2.allStoryRuns.length
      = Ledger.init.allStoryRuns.length + 2 ∧
    ((Ledger.init.WillRunPage 0 0).2.step .did).2.allStoryRuns.take
        (Ledger.init.WillRunPage 0 0).2.allStoryRuns.length
      = (Ledger.init.WillRunPage 0 0).2.allStoryRuns :=
  c4_alternating_runs Ledger.init (Ledger.init.WillRunPage 0 0).2
    ((Ledger.init.WillRunPage 0 0).2.step .did).2
    ((Ledger.init.WillRunPage 0 0).2.step .did).1
    [(0, 0), (1, 0)] .did (by rfl) (by rfl) (by rfl)

/-! ## Backend theorems -/

/-- The cooperative stage never touches the handle or the temp resources. -/
theorem coopStage_fields (env : CloseEnv) (s : BackendProc) (acc : List CloseAction) :
    (coopStage env s acc).1.procHandle = s.procHandle ∧
    (coopStage env s acc).1.tmpOutputFile = s.tmpOutputFile ∧
    (coopStage env s acc).1.tmpMinidumpDir = s.tmpMinidumpDir := by
  unfold coopStage
  split
  · split
    · exact ⟨rfl, rfl, rfl⟩
    · split
      · split
        · exact ⟨rfl, rfl, rfl⟩
        · exact ⟨rfl, rfl, rfl⟩
      · exact ⟨rfl, rfl, rfl⟩
  · exact ⟨rfl, rfl, rfl⟩

/-- The SIGINT stage never touches the temp resources. -/
theorem sigintStage_fields (env : CloseEnv) (s : BackendProc) (acc : List CloseAction) :
    (sigintStage env s acc).1.tmpOutputFile = s.tmpOutputFile ∧
    (sigintStage env s acc).1.tmpMinidumpDir = s.tmpMinidumpDir := by
  unfold sigintStage
  split
  · split
    · exact ⟨rfl, rfl⟩
    · split
      · exact ⟨rfl, rfl⟩
      · exact ⟨rfl, rfl⟩
  · exact ⟨rfl, rfl⟩

/-- The kill stage never touches the temp resources, and when it does not
fault it always clears the process handle (`self._proc = None`). -/
theorem killStage_fields (env : CloseEnv) (s : BackendProc) (acc : List CloseAction) :
    (killStage env s acc).1.tmpOutputFile = s.tmpOutputFile ∧
    (killStage env s acc).1.tmpMinidumpDir = s.tmpMinidumpDir ∧
    ((killStage env s acc).2.2 = none → (killStage env s acc).1.procHandle = false) := by
  unfold killStage
  split
  · split
    · exact ⟨rfl, rfl, fun h => absurd h (by simp)⟩
    · exact ⟨rfl, rfl, fun _ => rfl⟩
  · exact ⟨rfl, rfl, fun _ => rfl⟩

/-- The output stage preserves the other fields and, when it does not
fault, leaves no output file behind. -/
theorem outputStage_fields (env : CloseEnv) (s : BackendProc) (acc : List CloseAction) :
    (outputStage env s acc).1.procHandle = s.procHandle ∧
    (outputStage env s acc).1.tmpMinidumpDir = s.tmpMinidumpDir ∧
    ((outputStage env s acc).2.2 = none → (outputStage env s acc).1.tmpOutputFile = false) := by
  unfold outputStage
  split
  · split
    · exact ⟨rfl, rfl, fun h => absurd h (by simp)⟩
    · exact ⟨rfl, rfl, fun _ => rfl⟩
  · next h =>
      exact ⟨rfl, rfl, fun _ => by simpa using h⟩

/-- The minidump-dir stage preserves the other fields, never faults, and
leaves no temp directory behind. -/
theorem minidumpDirStage_fields (s : BackendProc) (acc : List CloseAction) :
    (minidumpDirStage s acc).1.procHandle = s.procHandle ∧
    (minidumpDirStage s acc).1.tmpOutputFile = s.tmpOutputFile ∧
    (minidumpDirStage s acc).2.2 = none ∧
    (minidumpDirStage s acc).1.tmpMinidumpDir = false := by
  unfold minidumpDirStage
  split
  · exact ⟨rfl, rfl, rfl, rfl⟩
  · next h =>
      exact ⟨rfl, rfl, rfl, by simpa using h⟩

/-- After a `Close` whose body did not fault internally, the process handle
is cleared, the output file is released and the temp directory is gone. -/
theorem closeBody_ok_state (env : CloseEnv) (s : BackendProc)
    (h : (closeBody env s).2.2 = none) :
    (closeBody env s).1.procHandle = false ∧
    (closeBody env s).1.tmpOutputFile = false ∧
    (closeBody env s).1.tmpMinidumpDir = false := by
  unfold closeBody andThenClose at h ⊢
  rcases h1 : coopStage env s [] with ⟨s1, acc1, f1⟩
  rw [h1] at h
  cases f1 with
  | some f => simp at h
  | none =>
      simp only [Option.isSome_none, Bool.false_eq_true, if_false] at h ⊢
      rcases h2 : sigintStage env s1 acc1 with ⟨s2, acc2, f2⟩
      rw [h2] at h
      cases f2 with
      | some f => simp at h
      | none =>
          simp only [Option.isSome_none, Bool.false_eq_true, if_false] at h ⊢
          rcases h3 : killStage env s2 acc2 with ⟨s3, acc3, f3⟩
          rw [h3] at h
          cases f3 with
          | some f => simp at h
          | none =>
              simp only [Option.isSome_none, Bool.false_eq_true, if_false] at h ⊢
              rcases h4 : outputStage env s3 acc3 with ⟨s4, acc4, f4⟩
              rw [h4] at h
              cases f4 with
              | some f => simp at h
              | none =>
                  simp only [Option.isSome_none, Bool.false_eq_true, if_false] at h ⊢
                  obtain ⟨k1, k2, k3⟩ := killStage_fields env s2 acc2
                  rw [h3] at k1 k2 k3
                  obtain ⟨o1, o2, o3⟩ := outputStage_fields env s3 acc3
                  rw [h4] at o1 o2 o3
                  obtain ⟨m1, m2, m3, m4⟩ := minidumpDirStage_fields s4 acc4
                  refine ⟨?_, ?_, m4⟩
                  · rw [m1, o1]
                    exact k3 rfl
                  · rw [m2]
                    exact o3 rfl

/-- A `Close` on a backend whose process handle, output file and temp
directory are already gone does nothing: no actions, no internal fault, no
state change — under any environment, including all-faulting ones, since
none of the faultable steps runs. -/
theorem closeBody_closed (env : CloseEnv) (s : BackendProc)
    (h1 : s.procHandle = false) (h2 : s.tmpOutputFile = false)
    (h3 : s.tmpMinidumpDir = false) :
    closeBody env s = (s, [], none) := by
  obtain ⟨ph, pa, tof, tmd⟩ := s
  simp only at h1 h2 h3
  subst h1 h2 h3
  unfold closeBody andThenClose coopStage sigintStage killStage outputStage minidumpDirStage isBrowserRunning
  simp

/-- C6: `Close` is exception-free from the point of view of the caller — the
`BestEffort` wrapper (modelled from the spec) returns the state and effects
up to any internal fault instead of propagating it — and, after a `Close`
whose internal steps all succeeded, a second `Close` on the same instance
under ANY environment (even one where every faultable step would fault) is
a no-op: it performs no actions (in particular it does not re-kill the
process, re-close the output file, or re-delete the temp directory),
changes no state, and none of its internal steps can fault. -/
theorem c6_close_idempotent (env env2 : CloseEnv) (s : BackendProc)
    (h : (closeBody env s).2.2 = none) :
    Close env2 (Close env s).1 = ((Close env s).1, []) ∧
    (closeBody env2 (Close env s).1).2.2 = none := by
  obtain ⟨h1, h2, h3⟩ := closeBody_ok_state env s h
  have hb := closeBody_closed env2 (Close env s).1 h1 h2 h3
  constructor
  · show ((closeBody env2 (Close env s).1).1, (closeBody env2 (Close env s).1).2.1)
        = ((Close env s).1, [])
    rw [hb]
  · rw [hb]

/-- Witness for C6: closing a fully live backend (cooperative shutdown
unsupported, SIGINT works, no faults) and closing again. -/
theorem c6_witness :
    Close closeEnvAllFaults (Close closeEnvPlain backendLive).1
      = ((Close closeEnvPlain backendLive).1, []) ∧
    (closeBody closeEnvAllFaults (Close closeEnvPlain backendLive).1).2.2 = none :=
  c6_close_idempotent closeEnvPlain closeEnvAllFaults backendLive (by rfl)

/-- A path is always a member of the set after its own insertion. -/
theorem mem_insertPath (p : String) (ps : List String) : p ∈ insertPath p ps := by
  unfold insertPath
  split
  · assumption
  · simp

/-- C7: after `Symbolize` returns `(true, stack)` for a dump path, that
path is no longer listed by `GetAllUnsymbolizedMinidumpPaths`; a second
`Symbolize` on the same path is not blocked by the memo set: it performs
the same upload and symbolize collaborator calls and returns the same
result whatever the memo state; and a `Symbolize` returning `(false, msg)`
leaves the symbolized set unchanged, so the path stays listed among the
unsymbolized dumps. -/
theorem c7_symbolize_memoization (env : SymEnv) (s : SymState) (p : String) :
    ((internalSymbolizeMinidump env s p).1.1 = true →
      p ∉ getAllUnsymbolizedMinidumpPaths env (internalSymbolizeMinidump env s p).2.1) ∧
    ((internalSymbolizeMinidump env s p).2.2 = [.uploadDump p, .symbolizeDump p]) ∧
    (∀ s2 : SymState, (internalSymbolizeMinidump env s2 p).1
      = (internalSymbolizeMinidump env s p).1) ∧
    ((internalSymbolizeMinidump env s p).1.1 = false →
      (internalSymbolizeMinidump env s p).2.1 = s ∧
      (p ∈ getAllUnsymbolizedMinidumpPaths env s →
        p ∈ getAllUnsymbolizedMinidumpPaths env (internalSymbolizeMinidump env s p).2.1)) := by
  refine ⟨fun hok => ?_, ?_, fun s2 => ?_, fun hfail => ?_⟩
  · unfold internalSymbolizeMinidump at hok ⊢
    by_cases hf : stackFalsy (env.stackOf p)
    · simp [hf] at hok
    · simp only [hf, Bool.false_eq_true, if_false]
      unfold getAllUnsymbolizedMinidumpPaths
      intro hmem
      rw [List.mem_filter] at hmem
      have h2 := hmem.2
      simp only [decide_eq_true_eq] at h2
      exact h2 (mem_insertPath p s.symbolizedPaths)
  · unfold internalSymbolizeMinidump
    split
    · rfl
    · rfl
  · unfold internalSymbolizeMinidump
    by_cases hf : stackFalsy (env.stackOf p)
    · simp [hf]
    · simp [hf]
  · unfold internalSymbolizeMinidump at hfail ⊢
    by_cases hf : stackFalsy (env.stackOf p)
    · simp only [hf, if_true]
      exact ⟨trivial, fun hmem => hmem⟩
    · simp [hf] at hfail

/-- Witness for C7 at a concrete environment: symbolizing `a.dmp` succeeds
and removes it from the unsymbolized listing. -/
theorem c7_witness :
    "a.dmp" ∉ getAllUnsymbolizedMinidumpPaths symEnvW
      (internalSymbolizeMinidump symEnvW ⟨[]⟩ "a.dmp").2.1 :=
  (c7_symbolize_memoization symEnvW ⟨[]⟩ "a.dmp").1 (by rfl)

/-- Counterexample to C8 as stated: a DevTools file whose single line is
`abc` has at least one non-empty line, yet reading it does not succeed — it
raises the `ValueError` from `int(lines[0])`, which is also not the
retryable not-ready `EnvironmentError`. -/
theorem c8_counterexample :
    pyRstrip "abc" ≠ "" ∧
    findDevToolsPortAndTarget (some ["abc"])
      = .error (.valueError "invalid literal for int: abc") := by
  refine ⟨by decide, by rfl⟩

/-- C8 (amended): reading the control-port file when it is absent or has
zero bytes yields the retryable not-ready `EnvironmentError`, distinct from
success and from the `ValueError` parse failure; a file whose first line
(after stripping trailing whitespace) parses as a decimal integer succeeds
with that port and the optional stripped second line as target; a non-empty
file whose first line does not parse raises `ValueError`, not the
retryable condition. -/
theorem c8_devtools_port_file (file : DevToolsFile) (l0 : String)
    (rest : List String) (port : Int) :
    (file = none →
      findDevToolsPortAndTarget file
        = .error (.envError "DevTools file doest not exist yet")) ∧
    (file = some [] →
      findDevToolsPortAndTarget file = .error (.envError "DevTools file empty")) ∧
    (file = some (l0 :: rest) → parsePyInt (pyRstrip l0) = some port →
      findDevToolsPortAndTarget file = .ok (port, (rest.map pyRstrip).head?)) ∧
    (file = some (l0 :: rest) → parsePyInt (pyRstrip l0) = none →
      findDevToolsPortAndTarget file
        = .error (.valueError ("invalid literal for int: " ++ pyRstrip l0))) := by
  refine ⟨fun h => ?_, fun h => ?_, fun h hp => ?_, fun h hp => ?_⟩
  · subst h
    rfl
  · subst h
    rfl
  · subst h
    unfold findDevToolsPortAndTarget
    simp [hp]
  · subst h
    unfold findDevToolsPortAndTarget
    simp [hp]

/-- Witness for C8 (amended) at concrete file contents: a file with lines
`9222` and `target-1` parses to port 9222 with that target. -/
theorem c8_witness :
    findDevToolsPortAndTarget (some ["9222", "target-1"])
      = .ok (9222, some "target-1") :=
  (c8_devtools_port_file (some ["9222", "target-1"]) "9222" ["target-1"] 9222).2.2.1
    rfl (by decide)

/-- Every trace of the polling loop has at most one event per remaining
time unit and contains no sleep/backoff event at all. -/
theorem dumpLoop_no_sleep (env : DumpEnv) (timeoutS oldestTs : Nat) :
    ∀ n i elapsed, timeoutS - elapsed ≤ n →
      (dumpLoop env timeoutS oldestTs i elapsed).2.length ≤ timeoutS - elapsed ∧
      (dumpLoop env timeoutS oldestTs i elapsed).2.countP isSleepEvent = 0 := by
  intro n
  induction n with
  | zero =>
      intro i elapsed hn
      rw [dumpLoop]
      have hlt : ¬ elapsed < timeoutS := by omega
      simp [hlt]
  | succ n ih =>
      intro i elapsed hn
      rw [dumpLoop]
      by_cases hlt : elapsed < timeoutS
      · simp only [hlt, if_true]
        cases hf : env.finder i with
        | none =>
            have hrec := ih (i + 1) (elapsed + 1 + env.extraTime i) (by omega)
            simp only [List.length_cons, List.countP_cons, isSleepEvent]
            constructor
            · omega
            · simp [hrec.2]
        | some dump =>
            by_cases hm : env.mtime dump < oldestTs
            · simp only [hm, if_true]
              have hrec := ih (i + 1) (elapsed + 1 + env.extraTime i) (by omega)
              simp only [List.length_cons, List.countP_cons, isSleepEvent]
              constructor
              · omega
              · simp [hrec.2]
            · simp only [hm, Bool.false_eq_true, if_false]
              constructor
              · simp
                omega
              · simp [List.countP_cons, isSleepEvent]
      · simp [hlt]

/-- Counterexample to C9 as stated: with a finder that never returns a dump
and one time unit per iteration, a 3-unit timeout produces three
consecutive poll attempts with no sleep or backoff event between any of
them — the loop `continue`s immediately. -/
theorem c9_counterexample :
    getRecentMinidumpPathWithTimeout pollEnvNone 3 0
      = some (none, [.poll 0, .poll 1, .poll 2]) ∧
    [PollEvent.poll 0, .poll 1, .poll 2].countP isSleepEvent = 0 := by
  constructor
  · unfold getRecentMinidumpPathWithTimeout
    rw [if_pos (by omega)]
    rw [dumpLoop, dumpLoop, dumpLoop, dumpLoop]
    simp [pollEnvNone]
  · rfl

/-- C9 (amended): the `GetRecentMinidumpPathWithTimeout` polling loop never
sleeps or backs off between attempts — it re-polls immediately — but every
iteration re-checks the wall-clock deadline and real iterations take time,
so the loop is bounded: any run performs at most `timeoutS` polls (one per
elapsed time unit) before returning. -/
theorem c9_poll_bounded (env : DumpEnv) (timeoutS oldestTs : Nat)
    (r : Option String) (evs : List PollEvent)
    (h : getRecentMinidumpPathWithTimeout env timeoutS oldestTs = some (r, evs)) :
    evs.length ≤ timeoutS ∧ evs.countP isSleepEvent = 0 := by
  unfold getRecentMinidumpPathWithTimeout at h
  split at h
  · simp only [Option.some.injEq] at h
    have h2 := dumpLoop_no_sleep env timeoutS oldestTs timeoutS 0 0 (by omega)
    rw [h] at h2
    simpa using h2
  · simp at h

/-- Witness for the amended C9 at the concrete environment of the
counterexample run. -/
theorem c9_witness :
    ([PollEvent.poll 0, .poll 1, .poll 2] : List PollEvent).length ≤ 3 ∧
    [PollEvent.poll 0, .poll 1, .poll 2].countP isSleepEvent = 0 :=
  c9_poll_bounded pollEnvNone 3 0 none [.poll 0, .poll 1, .poll 2]
    (by
      unfold getRecentMinidumpPathWithTimeout
      rw [if_pos (by omega)]
      rw [dumpLoop, dumpLoop, dumpLoop, dumpLoop]
      simp [pollEnvNone])

end Catapult
